import Mathlib

/-!
Verification of the Finx microservice product-aggregation core:
the provider ID codec, the in-memory product cache with its freshness
policy and warm-up regression guard, and the unified query engine
(merge, filter, paginate).  Definitions are shallow embeddings of the
JavaScript source (src/src/utils/providerCodes.js and the product
service in src/unnamed/part_002); JS strings are Lean Strings, JS
numbers are Int (ids, timestamps) or Rat (monetary amounts), and JS
dynamic values are explicit sum types.
-/

namespace Finx

/-! ## Provider ID codec (providerCodes.js) -/

/-- Split a character list at the first `'_'`: returns the characters
before it and after it, or `none` when no underscore occurs.  This
models `idStr.indexOf('_')` together with the two `substring` calls:
`some (pre, suf)` with `pre ≠ []` corresponds to `underscoreIdx > 0`,
`some ([], suf)` to `underscoreIdx = 0`, and `none` to `-1`. -/
def firstUnderscoreSplit : List Char → Option (List Char × List Char)
  | [] => none
  | c :: rest =>
    if c = '_' then some ([], rest)
    else (firstUnderscoreSplit rest).map (fun pr => (c :: pr.1, pr.2))

/-- `CODE_TO_PROVIDER` lookup table. -/
def codeToProvider (c : String) : Option String :=
  if c = "1001" then some "globetopper"
  else if c = "1002" then some "dtone"
  else if c = "1003" then some "billers"
  else if c = "1004" then some "ppn"
  else none

/-- `PROVIDER_TO_CODE` (the inversion of `CODE_TO_PROVIDER` built at
module load). -/
def providerToCode (n : String) : Option String :=
  if n = "globetopper" then some "1001"
  else if n = "dtone" then some "1002"
  else if n = "billers" then some "1003"
  else if n = "ppn" then some "1004"
  else none

/-- `OLD_PREFIX_TO_PROVIDER` lookup table (legacy name prefixes). -/
def oldPrefixToProvider (n : String) : Option String :=
  if n = "dtone" then some "dtone"
  else if n = "billers" then some "billers"
  else if n = "ppn" then some "ppn"
  else none

/-- `encodeProductId(rawId)`: returns falsy input unchanged; an input
whose text before the first underscore is a known numeric code is
returned unchanged; a known legacy provider-name first segment is
rewritten to the provider's numeric code; otherwise the GlobeTopper
code `1001` is prepended. -/
def encodeProductId (rawId : String) : String :=
  if rawId = "" then rawId
  else
    match firstUnderscoreSplit rawId.data with
    | some (pre, suf) =>
      if pre = [] then ((providerToCode "globetopper").getD "undefined") ++ "_" ++ rawId
      else
        let pfx := String.mk pre
        if (codeToProvider pfx).isSome then rawId
        else
          match oldPrefixToProvider pfx with
          | some _ =>
            ((providerToCode pfx).getD "undefined") ++ "_" ++ String.mk suf
          | none => ((providerToCode "globetopper").getD "undefined") ++ "_" ++ rawId
    | none => ((providerToCode "globetopper").getD "undefined") ++ "_" ++ rawId

/-- Result record of `decodeProductId`. -/
structure DecodedId where
  provider : String
  rawId : String
  internalId : String
deriving Repr, DecidableEq

/-- `decodeProductId(encodedId)`: numeric-code first segment decodes to
its provider (GlobeTopper keeping a plain internal id, others the
provider-prefixed internal id); a legacy provider-name first segment is
accepted as-is; everything else (empty, no underscore, leading
underscore, unknown first segment) falls back to the default provider
with the whole input as raw and internal id. -/
def decodeProductId (encodedId : String) : DecodedId :=
  if encodedId = "" then ⟨"globetopper", encodedId, encodedId⟩
  else
    match firstUnderscoreSplit encodedId.data with
    | some (pre, suf) =>
      if pre = [] then ⟨"globetopper", encodedId, encodedId⟩
      else
        let pfx := String.mk pre
        let raw := String.mk suf
        match codeToProvider pfx with
        | some provider =>
          ⟨provider, raw,
            if provider = "globetopper" then raw else provider ++ "_" ++ raw⟩
        | none =>
          match oldPrefixToProvider pfx with
          | some _ => ⟨pfx, raw, encodedId⟩
          | none => ⟨"globetopper", encodedId, encodedId⟩
    | none => ⟨"globetopper", encodedId, encodedId⟩

/-- The external id minted for `(provider, rawId)`: the encoder applied
to the bare raw id for the default provider and to the
provider-name-prefixed internal form for the other three (the
normalizers build `PROVIDER_TO_CODE[name] + '_' + rawId` via exactly
this path). -/
def externalIdFor (provider rawId : String) : String :=
  if provider = "globetopper" then encodeProductId rawId
  else encodeProductId (provider ++ "_" ++ rawId)

/-- A raw id is prefix-safe when its text before the first underscore
(if a positive-index underscore exists) is neither a known numeric code
nor a known legacy provider name, so the encoder's default-provider
branch applies to it. -/
def bareIdSafe (rawId : String) : Bool :=
  match firstUnderscoreSplit rawId.data with
  | some (pre, _) =>
    pre.isEmpty ||
      ((codeToProvider (String.mk pre)).isNone &&
        (oldPrefixToProvider (String.mk pre)).isNone)
  | none => true

/-! ### Structural lemmas about the underscore split -/

theorem fus_append (p : List Char) (hp : '_' ∉ p) (s : List Char) :
    firstUnderscoreSplit (p ++ '_' :: s) = some (p, s) := by
  induction p with
  | nil => simp [firstUnderscoreSplit]
  | cons c p ih =>
    have hc : c ≠ '_' := fun h => hp (h ▸ List.mem_cons_self c p)
    have hp' : '_' ∉ p := fun h => hp (List.mem_cons_of_mem c h)
    simp [firstUnderscoreSplit, hc, ih hp']

theorem fus_eq_some {l p s : List Char}
    (h : firstUnderscoreSplit l = some (p, s)) :
    l = p ++ '_' :: s ∧ '_' ∉ p := by
  induction l generalizing p s with
  | nil => simp [firstUnderscoreSplit] at h
  | cons c rest ih =>
    by_cases hc : c = '_'
    · subst hc
      simp [firstUnderscoreSplit] at h
      obtain ⟨hp, hs⟩ := h
      subst hp; subst hs
      exact ⟨rfl, by simp⟩
    · have h' : (firstUnderscoreSplit rest).map (fun pr => (c :: pr.1, pr.2))
          = some (p, s) := by
        simpa [firstUnderscoreSplit, hc] using h
      rcases hmap : firstUnderscoreSplit rest with _ | ⟨pr1, pr2⟩
      · rw [hmap] at h'; simp at h'
      · rw [hmap] at h'
        simp at h'
        obtain ⟨h1, h2⟩ := h'
        obtain ⟨hl, hnp⟩ := ih hmap
        subst h2
        constructor
        · rw [← h1]; simp [hl]
        · rw [← h1]
          intro hmem
          rcases List.mem_cons.mp hmem with hx | hx
          · exact hc hx.symm
          · exact hnp hx

theorem fus_none {l : List Char} (h : '_' ∉ l) :
    firstUnderscoreSplit l = none := by
  induction l with
  | nil => rfl
  | cons c rest ih =>
    have hc : c ≠ '_' := fun hh => h (hh ▸ List.mem_cons_self c rest)
    have h' : '_' ∉ rest := fun hh => h (List.mem_cons_of_mem c hh)
    simp [firstUnderscoreSplit, hc, ih h']

theorem string_mk_data (s : String) : String.mk s.data = s := rfl

/-! ### Evaluation lemmas for the codec -/

/-- An id starting with a recognized numeric code is returned unchanged
by the encoder (the no-double-encode branch). -/
theorem encode_fix_code (cs : List Char) (hnu : '_' ∉ cs) (hne : cs ≠ [])
    (hcode : (codeToProvider (String.mk cs)).isSome = true) (R : String) :
    encodeProductId (String.mk cs ++ "_" ++ R) = String.mk cs ++ "_" ++ R := by
  have hdata : (String.mk cs ++ "_" ++ R).data = cs ++ '_' :: R.data := by
    rw [String.data_append, String.data_append, List.append_assoc]
    rfl
  have hnil : (String.mk cs ++ "_" ++ R) ≠ "" := by
    intro h
    have h2 : (String.mk cs ++ "_" ++ R).data = [] := by rw [h]
    rw [hdata] at h2
    exact absurd (List.append_eq_nil.mp h2).2 (by simp)
  have hsplit : firstUnderscoreSplit (cs ++ '_' :: R.data) = some (cs, R.data) :=
    fus_append cs hnu R.data
  simp [encodeProductId, hnil, hdata, hsplit, hne, hcode]

theorem encode_fix_1001 (R : String) :
    encodeProductId ("1001_" ++ R) = "1001_" ++ R := by
  have h := encode_fix_code ['1', '0', '0', '1'] (by decide) (by decide)
    (by decide) R
  rwa [show String.mk ['1', '0', '0', '1'] ++ "_" = ("1001_" : String) from by decide]
    at h

theorem encode_fix_1002 (R : String) :
    encodeProductId ("1002_" ++ R) = "1002_" ++ R := by
  have h := encode_fix_code ['1', '0', '0', '2'] (by decide) (by decide)
    (by decide) R
  rwa [show String.mk ['1', '0', '0', '2'] ++ "_" = ("1002_" : String) from by decide]
    at h

theorem encode_fix_1003 (R : String) :
    encodeProductId ("1003_" ++ R) = "1003_" ++ R := by
  have h := encode_fix_code ['1', '0', '0', '3'] (by decide) (by decide)
    (by decide) R
  rwa [show String.mk ['1', '0', '0', '3'] ++ "_" = ("1003_" : String) from by decide]
    at h

theorem encode_fix_1004 (R : String) :
    encodeProductId ("1004_" ++ R) = "1004_" ++ R := by
  have h := encode_fix_code ['1', '0', '0', '4'] (by decide) (by decide)
    (by decide) R
  rwa [show String.mk ['1', '0', '0', '4'] ++ "_" = ("1004_" : String) from by decide]
    at h

/-- A prefix-safe nonempty id takes the default-provider branch of the
encoder. -/
theorem encode_default (R : String) (hne : R ≠ "") (hsafe : bareIdSafe R = true) :
    encodeProductId R = "1001_" ++ R := by
  rcases hsplit : firstUnderscoreSplit R.data with _ | ⟨pre, suf⟩
  · simp [encodeProductId, hne, hsplit, providerToCode,
      show ("1001" : String) ++ "_" = "1001_" from by decide]
  · by_cases hpre : pre = []
    · subst hpre
      simp [encodeProductId, hne, hsplit, providerToCode,
        show ("1001" : String) ++ "_" = "1001_" from by decide]
    · simp only [bareIdSafe, hsplit] at hsafe
      rw [Bool.or_eq_true, Bool.and_eq_true] at hsafe
      rcases hsafe with hsafe | ⟨hc, ho⟩
      · exact absurd (List.isEmpty_iff.mp hsafe) hpre
      · rw [Option.isNone_iff_eq_none] at hc ho
        simp [encodeProductId, hne, hsplit, hpre, hc, ho, providerToCode,
          show ("1001" : String) ++ "_" = "1001_" from by decide]

theorem old_prefix_cases {s : String} (h : (oldPrefixToProvider s).isSome = true) :
    s = "dtone" ∨ s = "billers" ∨ s = "ppn" := by
  by_cases h1 : s = "dtone"
  · exact Or.inl h1
  by_cases h2 : s = "billers"
  · exact Or.inr (Or.inl h2)
  by_cases h3 : s = "ppn"
  · exact Or.inr (Or.inr h3)
  simp [oldPrefixToProvider, h1, h2, h3] at h

/-- Decoding a `1001`-coded id recovers GlobeTopper with a plain
internal id. -/
theorem decode_1001 (R : String) :
    decodeProductId ("1001_" ++ R) = ⟨"globetopper", R, R⟩ := by
  have hnil : ("1001_" ++ R) ≠ "" := by
    intro h
    have h2 : ("1001_" ++ R).data = [] := by rw [h]
    rw [String.data_append] at h2
    exact absurd (List.append_eq_nil.mp h2).1 (by decide)
  have hsplit : firstUnderscoreSplit ('1' :: '0' :: '0' :: '1' :: '_' :: R.data)
      = some (['1', '0', '0', '1'], R.data) :=
    fus_append ['1', '0', '0', '1'] (by decide) R.data
  simp [decodeProductId, hnil, hsplit, codeToProvider,
    show String.mk ['1', '0', '0', '1'] = ("1001" : String) from by decide,
    string_mk_data]

/-- Decoding a `1002`-coded id recovers DT-One with the name-prefixed
internal id. -/
theorem decode_1002 (R : String) :
    decodeProductId ("1002_" ++ R) = ⟨"dtone", R, "dtone_" ++ R⟩ := by
  have hnil : ("1002_" ++ R) ≠ "" := by
    intro h
    have h2 : ("1002_" ++ R).data = [] := by rw [h]
    rw [String.data_append] at h2
    exact absurd (List.append_eq_nil.mp h2).1 (by decide)
  have hsplit : firstUnderscoreSplit ('1' :: '0' :: '0' :: '2' :: '_' :: R.data)
      = some (['1', '0', '0', '2'], R.data) :=
    fus_append ['1', '0', '0', '2'] (by decide) R.data
  simp [decodeProductId, hnil, hsplit, codeToProvider,
    show String.mk ['1', '0', '0', '2'] = ("1002" : String) from by decide,
    string_mk_data,
    show ("dtone" : String) ++ "_" = "dtone_" from by decide]

/-- Decoding a `1003`-coded id recovers Billers. -/
theorem decode_1003 (R : String) :
    decodeProductId ("1003_" ++ R) = ⟨"billers", R, "billers_" ++ R⟩ := by
  have hnil : ("1003_" ++ R) ≠ "" := by
    intro h
    have h2 : ("1003_" ++ R).data = [] := by rw [h]
    rw [String.data_append] at h2
    exact absurd (List.append_eq_nil.mp h2).1 (by decide)
  have hsplit : firstUnderscoreSplit ('1' :: '0' :: '0' :: '3' :: '_' :: R.data)
      = some (['1', '0', '0', '3'], R.data) :=
    fus_append ['1', '0', '0', '3'] (by decide) R.data
  simp [decodeProductId, hnil, hsplit, codeToProvider,
    show String.mk ['1', '0', '0', '3'] = ("1003" : String) from by decide,
    string_mk_data,
    show ("billers" : String) ++ "_" = "billers_" from by decide]

/-- Decoding a `1004`-coded id recovers PPN. -/
theorem decode_1004 (R : String) :
    decodeProductId ("1004_" ++ R) = ⟨"ppn", R, "ppn_" ++ R⟩ := by
  have hnil : ("1004_" ++ R) ≠ "" := by
    intro h
    have h2 : ("1004_" ++ R).data = [] := by rw [h]
    rw [String.data_append] at h2
    exact absurd (List.append_eq_nil.mp h2).1 (by decide)
  have hsplit : firstUnderscoreSplit ('1' :: '0' :: '0' :: '4' :: '_' :: R.data)
      = some (['1', '0', '0', '4'], R.data) :=
    fus_append ['1', '0', '0', '4'] (by decide) R.data
  simp [decodeProductId, hnil, hsplit, codeToProvider,
    show String.mk ['1', '0', '0', '4'] = ("1004" : String) from by decide,
    string_mk_data,
    show ("ppn" : String) ++ "_" = "ppn_" from by decide]

/-- Encoding a legacy `dtone_`-prefixed id rewrites the prefix to the
numeric code. -/
theorem encode_legacy_dtone (R : String) :
    encodeProductId ("dtone_" ++ R) = "1002_" ++ R := by
  have hnil : ("dtone_" ++ R) ≠ "" := by
    intro h
    have h2 : ("dtone_" ++ R).data = [] := by rw [h]
    rw [String.data_append] at h2
    exact absurd (List.append_eq_nil.mp h2).1 (by decide)
  have hsplit : firstUnderscoreSplit ('d' :: 't' :: 'o' :: 'n' :: 'e' :: '_' :: R.data)
      = some (['d', 't', 'o', 'n', 'e'], R.data) :=
    fus_append ['d', 't', 'o', 'n', 'e'] (by decide) R.data
  simp [encodeProductId, hnil, hsplit, codeToProvider, oldPrefixToProvider,
    providerToCode,
    show String.mk ['d', 't', 'o', 'n', 'e'] = ("dtone" : String) from by decide,
    string_mk_data,
    show ("1002" : String) ++ "_" = "1002_" from by decide]

/-- Encoding a legacy `billers_`-prefixed id rewrites the prefix to the
numeric code. -/
theorem encode_legacy_billers (R : String) :
    encodeProductId ("billers_" ++ R) = "1003_" ++ R := by
  have hnil : ("billers_" ++ R) ≠ "" := by
    intro h
    have h2 : ("billers_" ++ R).data = [] := by rw [h]
    rw [String.data_append] at h2
    exact absurd (List.append_eq_nil.mp h2).1 (by decide)
  have hsplit : firstUnderscoreSplit
      ('b' :: 'i' :: 'l' :: 'l' :: 'e' :: 'r' :: 's' :: '_' :: R.data)
      = some (['b', 'i', 'l', 'l', 'e', 'r', 's'], R.data) :=
    fus_append ['b', 'i', 'l', 'l', 'e', 'r', 's'] (by decide) R.data
  simp [encodeProductId, hnil, hsplit, codeToProvider, oldPrefixToProvider,
    providerToCode,
    show String.mk ['b', 'i', 'l', 'l', 'e', 'r', 's'] = ("billers" : String)
      from by decide,
    string_mk_data,
    show ("1003" : String) ++ "_" = "1003_" from by decide]

/-- Encoding a legacy `ppn_`-prefixed id rewrites the prefix to the
numeric code. -/
theorem encode_legacy_ppn (R : String) :
    encodeProductId ("ppn_" ++ R) = "1004_" ++ R := by
  have hnil : ("ppn_" ++ R) ≠ "" := by
    intro h
    have h2 : ("ppn_" ++ R).data = [] := by rw [h]
    rw [String.data_append] at h2
    exact absurd (List.append_eq_nil.mp h2).1 (by decide)
  have hsplit : firstUnderscoreSplit ('p' :: 'p' :: 'n' :: '_' :: R.data)
      = some (['p', 'p', 'n'], R.data) :=
    fus_append ['p', 'p', 'n'] (by decide) R.data
  simp [encodeProductId, hnil, hsplit, codeToProvider, oldPrefixToProvider,
    providerToCode,
    show String.mk ['p', 'p', 'n'] = ("ppn" : String) from by decide,
    string_mk_data,
    show ("1004" : String) ++ "_" = "1004_" from by decide]

/-! ### Claim theorems for the codec -/

/-- C1 counterexample: for the default provider GlobeTopper and the raw
id `"1002_123"`, the encoder's no-double-encode branch leaves the bare
raw id untouched, so decoding recovers provider `dtone` and raw id
`"123"` — not `(globetopper, "1002_123")` as the claim requires for
every raw id string. -/
theorem codec_round_trip_cex :
    ¬ ((decodeProductId (externalIdFor "globetopper" "1002_123")).provider
        = "globetopper"
      ∧ (decodeProductId (externalIdFor "globetopper" "1002_123")).rawId
        = "1002_123") := by
  decide

/-- C1 (amended): the codec round-trip holds for the three non-default
providers at every raw id string, and for the default provider
GlobeTopper at every prefix-safe raw id — one whose text before its
first underscore (when a positive-index underscore exists) is neither a
recognized numeric code nor a recognized legacy provider name. -/
theorem codec_round_trip (R : String) :
    ((decodeProductId (externalIdFor "dtone" R)).provider = "dtone"
      ∧ (decodeProductId (externalIdFor "dtone" R)).rawId = R)
    ∧ ((decodeProductId (externalIdFor "ppn" R)).provider = "ppn"
      ∧ (decodeProductId (externalIdFor "ppn" R)).rawId = R)
    ∧ ((decodeProductId (externalIdFor "billers" R)).provider = "billers"
      ∧ (decodeProductId (externalIdFor "billers" R)).rawId = R)
    ∧ (bareIdSafe R = true →
      (decodeProductId (externalIdFor "globetopper" R)).provider = "globetopper"
      ∧ (decodeProductId (externalIdFor "globetopper" R)).rawId = R) := by
  refine ⟨?_, ?_, ?_, ?_⟩
  · have he : externalIdFor "dtone" R = "1002_" ++ R := by
      rw [externalIdFor]
      rw [if_neg (by decide)]
      rw [show ("dtone" : String) ++ "_" ++ R = "dtone_" ++ R from by
        rw [show ("dtone" : String) ++ "_" = "dtone_" from by decide]]
      exact encode_legacy_dtone R
    rw [he, decode_1002]
    exact ⟨rfl, rfl⟩
  · have he : externalIdFor "ppn" R = "1004_" ++ R := by
      rw [externalIdFor]
      rw [if_neg (by decide)]
      rw [show ("ppn" : String) ++ "_" ++ R = "ppn_" ++ R from by
        rw [show ("ppn" : String) ++ "_" = "ppn_" from by decide]]
      exact encode_legacy_ppn R
    rw [he, decode_1004]
    exact ⟨rfl, rfl⟩
  · have he : externalIdFor "billers" R = "1003_" ++ R := by
      rw [externalIdFor]
      rw [if_neg (by decide)]
      rw [show ("billers" : String) ++ "_" ++ R = "billers_" ++ R from by
        rw [show ("billers" : String) ++ "_" = "billers_" from by decide]]
      exact encode_legacy_billers R
    rw [he, decode_1003]
    exact ⟨rfl, rfl⟩
  · intro hsafe
    by_cases hR : R = ""
    · subst hR
      exact ⟨rfl, rfl⟩
    · have he : externalIdFor "globetopper" R = "1001_" ++ R := by
        rw [externalIdFor, if_pos rfl]
        exact encode_default R hR hsafe
      rw [he, decode_1001]
      exact ⟨rfl, rfl⟩

/-- Witness for the amended C1 round-trip at the concrete raw id `"42"`,
whose prefix-safety hypothesis holds by evaluation. -/
theorem codec_round_trip_witness :
    (decodeProductId (externalIdFor "dtone" "42")).provider = "dtone"
    ∧ (decodeProductId (externalIdFor "globetopper" "42")).provider
      = "globetopper"
    ∧ (decodeProductId (externalIdFor "globetopper" "42")).rawId = "42" :=
  ⟨(codec_round_trip "42").1.1,
    ((codec_round_trip "42").2.2.2 (by decide)).1,
    ((codec_round_trip "42").2.2.2 (by decide)).2⟩

/-- C2: `encodeProductId` is idempotent on every input string —
numeric-coded, legacy provider-name-prefixed, bare, and the empty
string all encode to a fixed point of the encoder. -/
theorem encode_idempotent (x : String) :
    encodeProductId (encodeProductId x) = encodeProductId x := by
  by_cases hx : x = ""
  · subst hx; rfl
  rcases hsplit : firstUnderscoreSplit x.data with _ | ⟨pre, suf⟩
  · have henc : encodeProductId x = "1001_" ++ x :=
      encode_default x hx (by simp [bareIdSafe, hsplit])
    rw [henc, encode_fix_1001]
  by_cases hpre : pre = []
  · subst hpre
    have henc : encodeProductId x = "1001_" ++ x :=
      encode_default x hx (by simp [bareIdSafe, hsplit])
    rw [henc, encode_fix_1001]
  by_cases hcode : (codeToProvider (String.mk pre)).isSome = true
  · have henc : encodeProductId x = x := by
      simp [encodeProductId, hx, hsplit, hpre, hcode]
    rw [henc]
    exact henc
  by_cases hold : (oldPrefixToProvider (String.mk pre)).isSome = true
  · obtain ⟨v, hv⟩ := Option.isSome_iff_exists.mp hold
    have henc : encodeProductId x
        = ((providerToCode (String.mk pre)).getD "undefined") ++ "_"
          ++ String.mk suf := by
      simp [encodeProductId, hx, hsplit, hpre, hcode, hv]
    rcases old_prefix_cases hold with hp | hp | hp
    · rw [hp] at henc
      rw [show ((providerToCode "dtone").getD "undefined") ++ "_"
          = ("1002_" : String) from by decide] at henc
      rw [henc, encode_fix_1002]
    · rw [hp] at henc
      rw [show ((providerToCode "billers").getD "undefined") ++ "_"
          = ("1003_" : String) from by decide] at henc
      rw [henc, encode_fix_1003]
    · rw [hp] at henc
      rw [show ((providerToCode "ppn").getD "undefined") ++ "_"
          = ("1004_" : String) from by decide] at henc
      rw [henc, encode_fix_1004]
  · have hcn : codeToProvider (String.mk pre) = none :=
      Option.not_isSome_iff_eq_none.mp (by simpa using hcode)
    have hon : oldPrefixToProvider (String.mk pre) = none :=
      Option.not_isSome_iff_eq_none.mp (by simpa using hold)
    have henc : encodeProductId x = "1001_" ++ x :=
      encode_default x hx (by simp [bareIdSafe, hsplit, hpre, hcn, hon])
    rw [henc, encode_fix_1001]

/-- C8: decoding fails open — for the empty input, and for any input
whose text before the first underscore is neither a known numeric code
nor a known legacy provider name (including inputs with no underscore
or a leading underscore), `decodeProductId` returns the default
provider with the whole input as raw and internal id.  The Lean
function is total, mirroring that the JS function never throws. -/
theorem decode_fail_open (s : String) (h : s = "" ∨ bareIdSafe s = true) :
    decodeProductId s = ⟨"globetopper", s, s⟩ := by
  rcases h with h | h
  · subst h; rfl
  by_cases hs : s = ""
  · subst hs; rfl
  rcases hsplit : firstUnderscoreSplit s.data with _ | ⟨pre, suf⟩
  · simp [decodeProductId, hs, hsplit]
  by_cases hpre : pre = []
  · subst hpre
    simp [decodeProductId, hs, hsplit]
  simp only [bareIdSafe, hsplit] at h
  rw [Bool.or_eq_true, Bool.and_eq_true] at h
  rcases h with h | ⟨hc, ho⟩
  · exact absurd (List.isEmpty_iff.mp h) hpre
  · rw [Option.isNone_iff_eq_none] at hc ho
    simp [decodeProductId, hs, hsplit, hpre, hc, ho]

/-- Witness for C8 at the concrete malformed id `"zzz_9"`: its first
segment `zzz` is neither a numeric code nor a legacy provider name. -/
theorem decode_fail_open_witness :
    decodeProductId "zzz_9" = ⟨"globetopper", "zzz_9", "zzz_9"⟩ :=
  decode_fail_open "zzz_9" (Or.inr (by decide))

/-! ## Unified product model

`Product` carries the fields that the cache, warm-up, migration and
query-engine logic of the product service read (provider tag, the id
fields touched by `migrateCacheProducts`, the country fields consulted
by the per-provider country filters, the category field consulted by
`ensureOrchestratorFields` and the category filter, and the text fields
consulted by the search filter).  Display-only fields such as logos,
currencies and denomination strings are not consulted by that logic
and are not modelled. -/

/-- The slice of the JS `operator` object that the service logic reads:
`operator.id` (rewritten by migration) and `operator.country.iso2`
(consulted by the GlobeTopper country filter). -/
structure Operator where
  id : String
  name : String
  countryIso2 : String
deriving Repr, DecidableEq

/-- A JS `category` field: absent/null, a plain string, or an object
with a `name` (only the `name` of the object is consulted). -/
inductive CategoryField where
  | missing
  | str (s : String)
  | obj (nm : String)
deriving Repr, DecidableEq

structure Product where
  provider : String
  providerLabel : String
  billerID : String
  productId : String
  idField : String
  topupProductId : String
  operator : Option Operator
  iso2 : String
  countryCode : String
  category : CategoryField
  productName : String
  name : String
  brand : String
  description : String
deriving Repr, DecidableEq

/-- JS `a || b` on strings, where only `""` (and absent, modelled as
`""`) is falsy. -/
def jsOrS (a b : String) : String := if a = "" then b else a

/-- Collapse every maximal run of whitespace to a single space:
`replace(/\s+/g, ' ')`. -/
def collapseWs : List Char → List Char
  | [] => []
  | [c] => if c.isWhitespace then [' '] else [c]
  | c :: d :: rest =>
    if c.isWhitespace && d.isWhitespace then collapseWs (d :: rest)
    else (if c.isWhitespace then ' ' else c) :: collapseWs (d :: rest)

/-- `CATEGORY_ALIAS_MAP` lookup (key is the lowercased,
whitespace-collapsed trimmed name). -/
def categoryAlias (key : String) : Option String :=
  if key = "esim" then some "eSIM"
  else if key = "gift cards" then some "Gift Card"
  else if key = "giftcard" then some "Gift Card"
  else if key = "giftcards" then some "Gift Card"
  else if key = "gift card" then some "Gift Card"
  else if key = "top-up" then some "Top-Up"
  else if key = "top up" then some "Top-Up"
  else if key = "topup" then some "Top-Up"
  else if key = "charity & donations" then some "Charity"
  else if key = "charity and donations" then some "Charity"
  else if key = "donation" then some "Charity"
  else if key = "donations" then some "Charity"
  else if key = "telecommunications" then some "Telecom"
  else if key = "telecoms & media" then some "Telecom"
  else if key = "telecoms and media" then some "Telecom"
  else if key = "transportation" then some "Transport"
  else if key = "utility" then some "Utilities"
  else if key = "electric utility" then some "Utilities"
  else if key = "water utility" then some "Utilities"
  else if key = "tv,utility" then some "Utilities"
  else if key = "tv, utility" then some "Utilities"
  else if key = "cable and internet" then some "Internet"
  else if key = "cable & internet" then some "Internet"
  else if key = "mobile postpaid" then some "Mobile"
  else none

/-- `normalizeCategory(rawName)`: empty or blank input becomes
`"Other"`; otherwise the trimmed name is looked up in the alias map by
its lowercased whitespace-collapsed key, falling back to the trimmed
original. -/
def normalizeCategory (rawName : String) : String :=
  if rawName = "" then "Other"
  else
    let trimmed := rawName.trim
    if trimmed = "" then "Other"
    else
      let key := String.mk (collapseWs trimmed.toLower.data)
      match categoryAlias key with
      | some canonical => canonical
      | none => trimmed

/-- `ensureOrchestratorFields(p)`: synthesize a missing `operator`
object from the id/name/country fallback chains, coerce a missing or
string-valued `category` into an object (name defaulting to
`"Other"`), canonicalize the category name, and default a missing
`providerLabel` to the provider tag. -/
def ensureOrchestratorFields (p : Product) : Product :=
  let p1 :=
    match p.operator with
    | none =>
      { p with operator := some ⟨jsOrS p.billerID (jsOrS p.productId p.idField),
          jsOrS p.productName (jsOrS p.name p.brand),
          jsOrS p.iso2 p.countryCode⟩ }
    | some _ => p
  let p2 :=
    match p1.category with
    | .obj nm => { p1 with category := .obj (normalizeCategory nm) }
    | .str s => { p1 with category := .obj (normalizeCategory (jsOrS s "Other")) }
    | .missing => { p1 with category := .obj (normalizeCategory "Other") }
  if p2.providerLabel = "" then
    { p2 with providerLabel := jsOrS p2.provider "Unknown" }
  else p2

/-! ## Cache store and freshness policy -/

/-- `CACHE_TTL = 30 * 60 * 1000` milliseconds. -/
def CACHE_TTL : Int := 30 * 60 * 1000

structure CacheSlot where
  products : List Product
  timestamp : Int
deriving Repr, DecidableEq

structure ProductCache where
  globetopper : CacheSlot
  dtone : CacheSlot
  ppn : CacheSlot
  billers : CacheSlot
deriving Repr, DecidableEq

/-- `isCacheReady(provider)`: non-empty slot within the TTL window. -/
def isCacheReady (slot : CacheSlot) (now : Int) : Bool :=
  decide (0 < slot.products.length) && decide (now - slot.timestamp < CACHE_TTL)

/-- `hasCacheData(provider)`: non-empty slot (fresh or stale). -/
def hasCacheData (slot : CacheSlot) : Bool :=
  decide (0 < slot.products.length)

/-- One step of `migrateCacheProducts`: if `encodeProductId` changes
the product's `BillerID`, store the encoded id, re-encode a truthy
`topup_product_id`, and overwrite a truthy `operator.id` with the
encoded `BillerID`. -/
def migrateOne (p : Product) : Product :=
  let billerID := p.billerID
  let encoded := encodeProductId billerID
  if encoded ≠ billerID then
    let updated := { p with billerID := encoded }
    let updated :=
      if updated.topupProductId ≠ "" then
        { updated with topupProductId := encodeProductId updated.topupProductId }
      else updated
    match updated.operator with
    | some op =>
      if op.id ≠ "" then { updated with operator := some { op with id := encoded } }
      else updated
    | none => updated
  else p

/-- `migrateCacheProducts(products)`. -/
def migrateCacheProducts (products : List Product) : List Product :=
  products.map migrateOne

/-! ## Warm-up pass

`warmUpCache` is modelled as a pure state transformer: the four
provider fetch outcomes (success with the fetched records, or a caught
failure) and the clock are inputs, and the per-provider normalizers
are function parameters over opaque raw-record types.  The logging and
the final `saveCacheToDisk` have no effect on the in-memory cache and
are not modelled; the single-flight `cacheWarming` flag guards
re-entrancy, not the state transition itself. -/
def warmUpCache {γ δ β π : Type}
    (normGT : γ → List Product) (normDT : List δ → List Product)
    (normBill : List β → List Product) (normPpn : π → List Product)
    (cache : ProductCache) (now : Int)
    (gtFetch : Except Unit γ) (dtFetch : Except Unit (List δ))
    (billersFetch : Except Unit (List β)) (ppnFetch : Except Unit π)
    (ppnEnabled : Bool) : ProductCache :=
  let cache1 :=
    match gtFetch with
    | .ok g => { cache with globetopper := ⟨normGT g, now⟩ }
    | .error _ => cache
  let cache2 :=
    match dtFetch with
    | .ok allDtProducts =>
      let existingCount := cache1.dtone.products.length
      if allDtProducts.length ≥ existingCount ∨ existingCount = 0 then
        { cache1 with dtone := ⟨normDT allDtProducts, now⟩ }
      else
        { cache1 with dtone :=
            ⟨migrateCacheProducts cache1.dtone.products, cache1.dtone.timestamp⟩ }
    | .error _ => cache1
  let cache3 :=
    match billersFetch with
    | .ok allBillers =>
      let existingBillersCount := cache2.billers.products.length
      if allBillers.length ≥ existingBillersCount ∨ existingBillersCount = 0 then
        { cache2 with billers := ⟨normBill allBillers, now⟩ }
      else
        { cache2 with billers :=
            ⟨migrateCacheProducts cache2.billers.products, cache2.billers.timestamp⟩ }
    | .error _ => cache2
  if ppnEnabled then
    match ppnFetch with
    | .ok ppnData => { cache3 with ppn := ⟨normPpn ppnData, now⟩ }
    | .error _ => cache3
  else cache3

/-! ## Query engine (`getAllProducts`)

JS query-string values for `page` and `limit` are modelled explicitly
(number, string, null, undefined) so that JS truthiness and `parseInt`
behave as in the source; a `parseInt` result of `NaN` is `none`. -/

inductive JSVal where
  | num (n : Int)
  | str (s : String)
  | jsNull
  | undef
deriving Repr, DecidableEq

def jsTruthy : JSVal → Bool
  | .num n => n != 0
  | .str s => s != ""
  | .jsNull => false
  | .undef => false

def leadingDigitsAux (acc : Nat) : List Char → Nat
  | [] => acc
  | c :: rest =>
    if c.isDigit then leadingDigitsAux (10 * acc + (c.toNat - '0'.toNat)) rest
    else acc

/-- The leading decimal-digit run of a character list, or `none` when
it does not start with a digit (as `parseInt` ignores trailing
non-digits and yields `NaN` on a non-numeric start). -/
def leadingDigits : List Char → Option Nat
  | [] => none
  | c :: rest =>
    if c.isDigit then some (leadingDigitsAux (c.toNat - '0'.toNat) rest)
    else none

def parseIntStr (s : String) : Option Int :=
  match s.data with
  | '-' :: rest => (leadingDigits rest).map (fun n => -(n : Int))
  | '+' :: rest => (leadingDigits rest).map (fun n => (n : Int))
  | l => (leadingDigits l).map (fun n => (n : Int))

/-- `parseInt` on a JS value; `none` models `NaN`. -/
def parseIntJS : JSVal → Option Int
  | .num n => some n
  | .str s => parseIntStr s
  | .jsNull => none
  | .undef => none

/-- `parseInt(x) || d`: `NaN` and `0` both fall back to the default. -/
def jsOrInt (v : Option Int) (d : Int) : Int :=
  match v with
  | some n => if n = 0 then d else n
  | none => d

/-- Index resolution of `Array.prototype.slice`: negative indices count
from the end, and everything is clamped into `[0, len]`. -/
def jsSliceIdx (len : Nat) (i : Int) : Nat :=
  if i < 0 then ((len : Int) + i).toNat
  else min i.toNat len

/-- `arr.slice(start, stop)`. -/
def jsSlice {α : Type} (l : List α) (start stop : Int) : List α :=
  (l.take (jsSliceIdx l.length stop)).drop (jsSliceIdx l.length start)

/-- `Math.ceil(a / b)` on integer operands, with `none` for the
non-finite results produced by division by zero. -/
def jsCeilDiv (a b : Int) : Option Int :=
  if b = 0 then none else some (Int.ceil ((a : ℚ) / (b : ℚ)))

/-- The query filters; `none` models an absent query parameter. -/
structure Filters where
  page : JSVal
  limit : JSVal
  country : Option String
  category : Option String
  search : Option String
  provider : Option String
deriving Repr, DecidableEq

def noFilters : Filters := ⟨.undef, .undef, none, none, none, none⟩

/-- JS truthiness of an optional string parameter. -/
def sTruthy : Option String → Bool
  | none => false
  | some s => s != ""

/-- `!providerFilter || providerFilter === name`. -/
def includeProvider (pf : Option String) (pname : String) : Bool :=
  !(sTruthy pf) || (pf == some pname)

/-- The GlobeTopper cached-country predicate
(`p.iso2 === c || p.countryCode === c || p.operator?.country?.iso2 === c`). -/
def gtCountryMatch (c : String) (p : Product) : Bool :=
  p.iso2 == c || p.countryCode == c ||
    (match p.operator with
     | some op => op.countryIso2 == c
     | none => false)

/-- The cached-country predicate of the other three providers
(`p.iso2 === c || p.countryCode === c`). -/
def stdCountryMatch (c : String) (p : Product) : Bool :=
  p.iso2 == c || p.countryCode == c

/-- `if (country) cached = cached.filter(...)`. -/
def applyCountryFilter (m : String → Product → Bool) (country : Option String)
    (l : List Product) : List Product :=
  if sTruthy country then l.filter (m (country.getD "")) else l

/-- Outcome of one provider's section of `getAllProducts`: its
contribution to the merged list, its `providerCounts` entry (`none`
when the section is skipped by the provider filter), and whether the
live-fetch fallback ran. -/
structure BranchOut where
  contribution : List Product
  count : Option Nat
  usedLive : Bool
deriving Repr, DecidableEq

/-- The shared core of each provider section: serve the cached slot
(fresh or stale) when it has data, otherwise fall back to one live
fetch+normalize whose caught failure contributes zero. -/
def branchCore (m : String → Product → Bool) (slot : CacheSlot) (now : Int)
    (country : Option String) (live : Except Unit (List Product)) : BranchOut :=
  if isCacheReady slot now || hasCacheData slot then
    let cached := applyCountryFilter m country slot.products
    ⟨cached, some cached.length, false⟩
  else
    match live with
    | .ok normalized => ⟨normalized, some normalized.length, true⟩
    | .error _ => ⟨[], some 0, true⟩

/-- A provider section guarded by the provider filter. -/
def providerBranch (m : String → Product → Bool) (slot : CacheSlot) (now : Int)
    (country : Option String) (included : Bool)
    (live : Except Unit (List Product)) : BranchOut :=
  if included then branchCore m slot now country live
  else ⟨[], none, false⟩

/-- The PPN section, which additionally short-circuits to a zero count
when the provider is disabled by configuration
(`process.env.PPN_ENABLED === 'false'`). -/
def ppnBranchFull (slot : CacheSlot) (now : Int) (country : Option String)
    (included ppnEnabled : Bool) (live : Except Unit (List Product)) : BranchOut :=
  if included then
    if ppnEnabled then branchCore stdCountryMatch slot now country live
    else ⟨[], some 0, false⟩
  else ⟨[], none, false⟩

/-- The four live fetch+normalize outcomes available to the query path
(each `.ok` carries the normalized records of the corresponding
provider's live branch). -/
structure LiveFetches where
  globetopper : Except Unit (List Product)
  dtone : Except Unit (List Product)
  ppn : Except Unit (List Product)
  billers : Except Unit (List Product)

structure ProviderCounts where
  globetopper : Option Nat
  dtone : Option Nat
  ppn : Option Nat
  billers : Option Nat
deriving Repr, DecidableEq

/-- `hay.includes(needle)`: contiguous-substring containment. -/
def strIncludes (hay needle : String) : Bool :=
  decide (needle.data <:+: hay.data)

/-- The category text filter (`catName?.toLowerCase().includes(cat)`
where `catName` is the category object's name or the raw string). -/
def categoryPred (cat : String) (p : Product) : Bool :=
  match p.category with
  | .obj nm => strIncludes nm.toLower cat
  | .str s => strIncludes s.toLower cat
  | .missing => false

/-- The search text filter over name, brand and description. -/
def searchPred (s : String) (p : Product) : Bool :=
  strIncludes p.productName.toLower s || strIncludes p.brand.toLower s
    || strIncludes p.description.toLower s

/-- The merge-and-filter phase of `getAllProducts`: the four provider
sections (GlobeTopper, DT-One, PPN, Billers, in source order)
concatenated, passed through `ensureOrchestratorFields`, then the
category and search filters; paired with the per-provider counts
recorded before text filtering.  The fire-and-forget
`triggerBackgroundRefreshIfStale()` call does not affect the returned
value and is not modelled. -/
def mergedFiltered (cache : ProductCache) (now : Int) (live : LiveFetches)
    (ppnEnabled : Bool) (f : Filters) : List Product × ProviderCounts :=
  let gb := providerBranch gtCountryMatch cache.globetopper now f.country
    (includeProvider f.provider "globetopper") live.globetopper
  let db := providerBranch stdCountryMatch cache.dtone now f.country
    (includeProvider f.provider "dtone") live.dtone
  let pb := ppnBranchFull cache.ppn now f.country
    (includeProvider f.provider "ppn") ppnEnabled live.ppn
  let bb := providerBranch stdCountryMatch cache.billers now f.country
    (includeProvider f.provider "billers") live.billers
  let merged := gb.contribution ++ db.contribution ++ pb.contribution
    ++ bb.contribution
  let ensured := merged.map ensureOrchestratorFields
  let afterCategory :=
    if sTruthy f.category then
      ensured.filter (categoryPred ((f.category.getD "").toLower))
    else ensured
  let afterSearch :=
    if sTruthy f.search then
      afterCategory.filter (searchPred ((f.search.getD "").toLower))
    else afterCategory
  (afterSearch, ⟨gb.count, db.count, pb.count, bb.count⟩)

structure PaginationInfo where
  page : Option Int
  limit : Option Int
  total : Nat
  totalPages : Option Int
deriving Repr, DecidableEq

structure QueryResult where
  products : List Product
  pagination : PaginationInfo
  providers : ProviderCounts
deriving Repr, DecidableEq

/-- The pagination phase of `getAllProducts`: with a truthy `limit`,
slice `[(page-1)*limit, page*limit)` and report
`Math.ceil(total/limit)` pages (a `NaN` limit slices to an empty page
with `NaN` pagination fields); with a falsy `limit`, return the whole
set as one page. -/
def paginateStep (allProducts : List Product) (counts : ProviderCounts)
    (page limit : JSVal) : QueryResult :=
  let total := allProducts.length
  if jsTruthy limit then
    let pageNum := jsOrInt (parseIntJS page) 1
    match parseIntJS limit with
    | some limitNum =>
      let startIndex := (pageNum - 1) * limitNum
      ⟨jsSlice allProducts startIndex (startIndex + limitNum),
        ⟨some pageNum, some limitNum, total, jsCeilDiv (total : Int) limitNum⟩,
        counts⟩
    | none =>
      ⟨[], ⟨some pageNum, none, total, none⟩, counts⟩
  else
    ⟨allProducts, ⟨some 1, some (total : Int), total, some 1⟩, counts⟩

/-- `getAllProducts(filters)` as a pure function of the cache state,
the clock, the available live-fetch outcomes, the PPN feature flag and
the filters. -/
def getAllProducts (cache : ProductCache) (now : Int) (live : LiveFetches)
    (ppnEnabled : Bool) (f : Filters) : QueryResult :=
  let mc := mergedFiltered cache now live ppnEnabled f
  paginateStep mc.1 mc.2 f.page f.limit

/-! ## Shared concrete fixtures for witnesses and counterexamples -/

def sampleProduct : Product :=
  ⟨"globetopper", "GlobeTopper", "1001_1", "1", "", "1001_1", none,
    "US", "US", .obj "Gift Card", "Sample", "Sample", "Sample", ""⟩

def emptySlot : CacheSlot := ⟨[], 0⟩

def emptyCache : ProductCache := ⟨emptySlot, emptySlot, emptySlot, emptySlot⟩

def errorFetches : LiveFetches :=
  ⟨Except.error (), Except.error (), Except.error (), Except.error ()⟩

/-! ## Warm-up projection lemmas -/

theorem warmUp_gt_ok {γ δ β π : Type}
    (normGT : γ → List Product) (normDT : List δ → List Product)
    (normBill : List β → List Product) (normPpn : π → List Product)
    (cache : ProductCache) (now : Int) (g : γ)
    (dtFetch : Except Unit (List δ)) (billersFetch : Except Unit (List β))
    (ppnFetch : Except Unit π) (ppnEnabled : Bool) :
    (warmUpCache normGT normDT normBill normPpn cache now
      (Except.ok g) dtFetch billersFetch ppnFetch ppnEnabled).globetopper
      = ⟨normGT g, now⟩ := by
  unfold warmUpCache
  cases dtFetch <;> cases billersFetch <;> cases ppnFetch <;>
    cases ppnEnabled <;> simp [apply_ite ProductCache.globetopper]

theorem warmUp_dtone_ok {γ δ β π : Type}
    (normGT : γ → List Product) (normDT : List δ → List Product)
    (normBill : List β → List Product) (normPpn : π → List Product)
    (cache : ProductCache) (now : Int)
    (gtFetch : Except Unit γ) (raws : List δ)
    (billersFetch : Except Unit (List β)) (ppnFetch : Except Unit π)
    (ppnEnabled : Bool) :
    (warmUpCache normGT normDT normBill normPpn cache now
      gtFetch (Except.ok raws) billersFetch ppnFetch ppnEnabled).dtone
      = if raws.length ≥ cache.dtone.products.length
            ∨ cache.dtone.products.length = 0
        then ⟨normDT raws, now⟩
        else ⟨migrateCacheProducts cache.dtone.products,
          cache.dtone.timestamp⟩ := by
  unfold warmUpCache
  cases gtFetch <;> cases billersFetch <;> cases ppnFetch <;>
    cases ppnEnabled <;> simp [apply_ite ProductCache.dtone]

theorem warmUp_billers_ok {γ δ β π : Type}
    (normGT : γ → List Product) (normDT : List δ → List Product)
    (normBill : List β → List Product) (normPpn : π → List Product)
    (cache : ProductCache) (now : Int)
    (gtFetch : Except Unit γ) (dtFetch : Except Unit (List δ))
    (raws : List β) (ppnFetch : Except Unit π) (ppnEnabled : Bool) :
    (warmUpCache normGT normDT normBill normPpn cache now
      gtFetch dtFetch (Except.ok raws) ppnFetch ppnEnabled).billers
      = if raws.length ≥ cache.billers.products.length
            ∨ cache.billers.products.length = 0
        then ⟨normBill raws, now⟩
        else ⟨migrateCacheProducts cache.billers.products,
          cache.billers.timestamp⟩ := by
  unfold warmUpCache
  cases gtFetch <;> cases dtFetch <;> cases ppnFetch <;>
    cases ppnEnabled <;> simp [apply_ite ProductCache.billers]

theorem warmUp_ppn_ok {γ δ β π : Type}
    (normGT : γ → List Product) (normDT : List δ → List Product)
    (normBill : List β → List Product) (normPpn : π → List Product)
    (cache : ProductCache) (now : Int)
    (gtFetch : Except Unit γ) (dtFetch : Except Unit (List δ))
    (billersFetch : Except Unit (List β)) (d : π) :
    (warmUpCache normGT normDT normBill normPpn cache now
      gtFetch dtFetch billersFetch (Except.ok d) true).ppn
      = ⟨normPpn d, now⟩ := by
  unfold warmUpCache
  cases gtFetch <;> cases dtFetch <;> cases billersFetch <;>
    simp [apply_ite ProductCache.ppn]

/-! ## Claim theorems for the warm-up regression guard -/

/-- C3 counterexample: the GlobeTopper slot holds 2 products, the
warm-up fetch for GlobeTopper yields only 1 record, yet the slot is
replaced (1 product, new timestamp) rather than left unchanged — the
regression guard does not cover the GlobeTopper (or PPN) branch. -/
theorem warm_up_regression_guard_cex :
    (warmUpCache (fun _ : Unit => [sampleProduct]) (fun _ : List Unit => [])
        (fun _ : List Unit => []) (fun _ : Unit => [])
        ⟨⟨[sampleProduct, sampleProduct], 100⟩, ⟨[], 0⟩, ⟨[], 0⟩, ⟨[], 0⟩⟩ 200
        (Except.ok ()) (Except.error ()) (Except.error ()) (Except.error ())
        true).globetopper
      ≠ ⟨[sampleProduct, sampleProduct], 100⟩
    ∧ (warmUpCache (fun _ : Unit => [sampleProduct]) (fun _ : List Unit => [])
        (fun _ : List Unit => []) (fun _ : Unit => [])
        ⟨⟨[sampleProduct, sampleProduct], 100⟩, ⟨[], 0⟩, ⟨[], 0⟩, ⟨[], 0⟩⟩ 200
        (Except.ok ()) (Except.error ()) (Except.error ()) (Except.error ())
        true).globetopper
      = ⟨[sampleProduct], 200⟩ := by
  constructor
  · decide
  · rfl

/-- C3 (amended): the regression guard protects only the DT-One and
Billers slots.  For those two, a successful warm-up fetch of `M < N`
raw records (against a slot currently holding `N > 0` products) keeps
the slot's products up to in-place ID-scheme migration — preserving
the count `N` — and keeps the original timestamp, while `M ≥ N` or an
empty slot replaces the slot with the newly normalized records and the
new timestamp.  The GlobeTopper slot (and, when enabled, the PPN slot)
is replaced unconditionally by any successful fetch. -/
theorem warm_up_regression_guard {γ δ β π : Type}
    (normGT : γ → List Product) (normDT : List δ → List Product)
    (normBill : List β → List Product) (normPpn : π → List Product)
    (cache : ProductCache) (now : Int)
    (gtFetch : Except Unit γ) (dtFetch : Except Unit (List δ))
    (billersFetch : Except Unit (List β)) (ppnFetch : Except Unit π)
    (ppnEnabled : Bool) (out : ProductCache)
    (hout : out = warmUpCache normGT normDT normBill normPpn cache now
      gtFetch dtFetch billersFetch ppnFetch ppnEnabled) :
    (∀ raws, dtFetch = Except.ok raws →
      (raws.length < cache.dtone.products.length →
        out.dtone.products = migrateCacheProducts cache.dtone.products
        ∧ out.dtone.products.length = cache.dtone.products.length
        ∧ out.dtone.timestamp = cache.dtone.timestamp)
      ∧ (cache.dtone.products.length ≤ raws.length
          ∨ cache.dtone.products = [] →
        out.dtone = ⟨normDT raws, now⟩))
    ∧ (∀ raws, billersFetch = Except.ok raws →
      (raws.length < cache.billers.products.length →
        out.billers.products = migrateCacheProducts cache.billers.products
        ∧ out.billers.products.length = cache.billers.products.length
        ∧ out.billers.timestamp = cache.billers.timestamp)
      ∧ (cache.billers.products.length ≤ raws.length
          ∨ cache.billers.products = [] →
        out.billers = ⟨normBill raws, now⟩))
    ∧ (∀ g, gtFetch = Except.ok g → out.globetopper = ⟨normGT g, now⟩)
    ∧ (ppnEnabled = true → ∀ d, ppnFetch = Except.ok d →
        out.ppn = ⟨normPpn d, now⟩) := by
  subst hout
  refine ⟨?_, ?_, ?_, ?_⟩
  · intro raws hdt
    subst hdt
    have hd := warmUp_dtone_ok normGT normDT normBill normPpn cache now
      gtFetch raws billersFetch ppnFetch ppnEnabled
    constructor
    · intro hlt
      have hcond : ¬(raws.length ≥ cache.dtone.products.length
          ∨ cache.dtone.products.length = 0) := by omega
      rw [if_neg hcond] at hd
      rw [hd]
      exact ⟨rfl, by simp [migrateCacheProducts], rfl⟩
    · intro hge
      have hcond : raws.length ≥ cache.dtone.products.length
          ∨ cache.dtone.products.length = 0 := by
        rcases hge with h | h
        · exact Or.inl h
        · exact Or.inr (by simp [h])
      rw [if_pos hcond] at hd
      exact hd
  · intro raws hb
    subst hb
    have hd := warmUp_billers_ok normGT normDT normBill normPpn cache now
      gtFetch dtFetch raws ppnFetch ppnEnabled
    constructor
    · intro hlt
      have hcond : ¬(raws.length ≥ cache.billers.products.length
          ∨ cache.billers.products.length = 0) := by omega
      rw [if_neg hcond] at hd
      rw [hd]
      exact ⟨rfl, by simp [migrateCacheProducts], rfl⟩
    · intro hge
      have hcond : raws.length ≥ cache.billers.products.length
          ∨ cache.billers.products.length = 0 := by
        rcases hge with h | h
        · exact Or.inl h
        · exact Or.inr (by simp [h])
      rw [if_pos hcond] at hd
      exact hd
  · intro g hg
    subst hg
    exact warmUp_gt_ok normGT normDT normBill normPpn cache now g
      dtFetch billersFetch ppnFetch ppnEnabled
  · intro hen d hp
    subst hen
    subst hp
    exact warmUp_ppn_ok normGT normDT normBill normPpn cache now
      gtFetch dtFetch billersFetch d

/-- Witness for the amended C3: a DT-One slot of 2 products rejects a
1-record warm-up (keeping count and timestamp) while a Billers slot of
1 product accepts a 2-record warm-up. -/
theorem warm_up_regression_guard_witness :
    (warmUpCache (fun _ : Unit => [sampleProduct]) (fun _ : List Unit => [])
        (fun l : List Unit => l.map (fun _ => sampleProduct)) (fun _ : Unit => [])
        ⟨⟨[], 0⟩, ⟨[sampleProduct, sampleProduct], 100⟩, ⟨[], 0⟩,
          ⟨[sampleProduct], 100⟩⟩ 200
        (Except.error ()) (Except.ok [()]) (Except.ok [(), ()])
        (Except.error ()) true).dtone.products.length = 2
    ∧ (warmUpCache (fun _ : Unit => [sampleProduct]) (fun _ : List Unit => [])
        (fun l : List Unit => l.map (fun _ => sampleProduct)) (fun _ : Unit => [])
        ⟨⟨[], 0⟩, ⟨[sampleProduct, sampleProduct], 100⟩, ⟨[], 0⟩,
          ⟨[sampleProduct], 100⟩⟩ 200
        (Except.error ()) (Except.ok [()]) (Except.ok [(), ()])
        (Except.error ()) true).dtone.timestamp = 100
    ∧ (warmUpCache (fun _ : Unit => [sampleProduct]) (fun _ : List Unit => [])
        (fun l : List Unit => l.map (fun _ => sampleProduct)) (fun _ : Unit => [])
        ⟨⟨[], 0⟩, ⟨[sampleProduct, sampleProduct], 100⟩, ⟨[], 0⟩,
          ⟨[sampleProduct], 100⟩⟩ 200
        (Except.error ()) (Except.ok [()]) (Except.ok [(), ()])
        (Except.error ()) true).billers
      = ⟨[sampleProduct, sampleProduct], 200⟩ := by
  have h := warm_up_regression_guard
    (fun _ : Unit => [sampleProduct]) (fun _ : List Unit => [])
    (fun l : List Unit => l.map (fun _ => sampleProduct)) (fun _ : Unit => [])
    ⟨⟨[], 0⟩, ⟨[sampleProduct, sampleProduct], 100⟩, ⟨[], 0⟩,
      ⟨[sampleProduct], 100⟩⟩ 200
    (Except.error ()) (Except.ok [()]) (Except.ok [(), ()])
    (Except.error ()) true _ rfl
  refine ⟨?_, ?_, ?_⟩
  · rw [((h.1 [()] rfl).1 (by decide)).2.1]
    decide
  · exact ((h.1 [()] rfl).1 (by decide)).2.2
  · have hb := (h.2.1 [(), ()] rfl).2 (by decide)
    rw [hb]
    decide

/-! ## Claim theorems for the freshness policy and query engine -/

/-- C4: a slot populated with a non-empty product list at time `T` is
Fresh (`isCacheReady`) at every instant with `t - T < CACHE_TTL` and
Stale (`hasCacheData` but not `isCacheReady`) at every instant with
`CACHE_TTL ≤ t - T`; and at every instant whatsoever the query path's
provider section serves the same country-filtered cached list with no
live fetch (`usedLive = false`, result independent of `t` and of the
live outcome). -/
theorem freshness_transition (prods : List Product) (hne : prods ≠ [])
    (T t : Int) (m : String → Product → Bool) (country : Option String)
    (live : Except Unit (List Product)) :
    (t - T < CACHE_TTL → isCacheReady ⟨prods, T⟩ t = true)
    ∧ (CACHE_TTL ≤ t - T →
        isCacheReady ⟨prods, T⟩ t = false ∧ hasCacheData ⟨prods, T⟩ = true)
    ∧ providerBranch m ⟨prods, T⟩ t country true live
      = ⟨applyCountryFilter m country prods,
          some (applyCountryFilter m country prods).length, false⟩ := by
  have hlen : 0 < prods.length := List.length_pos.mpr hne
  refine ⟨?_, ?_, ?_⟩
  · intro h
    simp [isCacheReady, hlen, h]
  · intro h
    refine ⟨?_, by simp [hasCacheData, hlen]⟩
    have hnl : ¬(t - T < CACHE_TTL) := by omega
    simp [isCacheReady, hnl]
  · have hhas : hasCacheData ⟨prods, T⟩ = true := by simp [hasCacheData, hlen]
    simp [providerBranch, branchCore, hhas]

/-- Witness for C4 with a one-product slot populated at `T = 0`:
Fresh at `t = 10`, Stale at `t = CACHE_TTL`, and the stale query still
serves the cached product without a live fetch. -/
theorem freshness_transition_witness :
    isCacheReady ⟨[sampleProduct], 0⟩ 10 = true
    ∧ isCacheReady ⟨[sampleProduct], 0⟩ CACHE_TTL = false
    ∧ providerBranch stdCountryMatch ⟨[sampleProduct], 0⟩ CACHE_TTL none true
        (Except.error ())
      = ⟨[sampleProduct], some 1, false⟩ := by
  have h1 := freshness_transition [sampleProduct] (by decide) 0 10
    stdCountryMatch none (Except.error ())
  have h2 := freshness_transition [sampleProduct] (by decide) 0 CACHE_TTL
    stdCountryMatch none (Except.error ())
  refine ⟨h1.1 (by decide), (h2.2.1 (by decide)).1, ?_⟩
  rw [h2.2.2]
  rfl

/-- Each provider section reports exactly the length of its
contribution as its `providerCounts` entry. -/
theorem branchCore_count (m : String → Product → Bool) (slot : CacheSlot)
    (now : Int) (country : Option String) (live : Except Unit (List Product)) :
    (branchCore m slot now country live).count
      = some (branchCore m slot now country live).contribution.length := by
  by_cases h : (isCacheReady slot now || hasCacheData slot) = true
  · simp [branchCore, h]
  · cases live <;> simp [branchCore, h]

/-- C5: with no filters at all, the number of products returned by
`getAllProducts` equals the sum of the four per-provider counts in the
returned `providers` object. -/
theorem merge_completeness (cache : ProductCache) (now : Int)
    (live : LiveFetches) (ppnEnabled : Bool) :
    ∃ a b c d : Nat,
      (getAllProducts cache now live ppnEnabled noFilters).providers
        = ⟨some a, some b, some c, some d⟩
      ∧ (getAllProducts cache now live ppnEnabled noFilters).products.length
        = a + b + c + d := by
  cases ppnEnabled with
  | false =>
    refine ⟨(branchCore gtCountryMatch cache.globetopper now none
          live.globetopper).contribution.length,
        (branchCore stdCountryMatch cache.dtone now none
          live.dtone).contribution.length,
        0,
        (branchCore stdCountryMatch cache.billers now none
          live.billers).contribution.length, ?_, ?_⟩
    · simp [getAllProducts, mergedFiltered, paginateStep, noFilters,
        includeProvider, sTruthy, providerBranch, ppnBranchFull, jsTruthy,
        branchCore_count]
    · simp [getAllProducts, mergedFiltered, paginateStep, noFilters,
        includeProvider, sTruthy, providerBranch, ppnBranchFull, jsTruthy]
      omega
  | true =>
    refine ⟨(branchCore gtCountryMatch cache.globetopper now none
          live.globetopper).contribution.length,
        (branchCore stdCountryMatch cache.dtone now none
          live.dtone).contribution.length,
        (branchCore stdCountryMatch cache.ppn now none
          live.ppn).contribution.length,
        (branchCore stdCountryMatch cache.billers now none
          live.billers).contribution.length, ?_, ?_⟩
    · simp [getAllProducts, mergedFiltered, paginateStep, noFilters,
        includeProvider, sTruthy, providerBranch, ppnBranchFull, jsTruthy,
        branchCore_count]
    · simp [getAllProducts, mergedFiltered, paginateStep, noFilters,
        includeProvider, sTruthy, providerBranch, ppnBranchFull, jsTruthy]
      omega

/-- C7: with a completely cold cache, a successful GlobeTopper live
fetch of `l` and failing live fetches for the other three providers,
the no-filter query returns exactly the (field-ensured) products of
the successful provider, with count `l.length` for it and `0` for the
failed providers; the function is total, so no exception escapes. -/
theorem partial_failure_tolerance (l : List Product) (t1 t2 t3 t4 now : Int) :
    (getAllProducts ⟨⟨[], t1⟩, ⟨[], t2⟩, ⟨[], t3⟩, ⟨[], t4⟩⟩ now
        ⟨Except.ok l, Except.error (), Except.error (), Except.error ()⟩ true
        noFilters).products = l.map ensureOrchestratorFields
    ∧ (getAllProducts ⟨⟨[], t1⟩, ⟨[], t2⟩, ⟨[], t3⟩, ⟨[], t4⟩⟩ now
        ⟨Except.ok l, Except.error (), Except.error (), Except.error ()⟩ true
        noFilters).products.length = l.length
    ∧ (getAllProducts ⟨⟨[], t1⟩, ⟨[], t2⟩, ⟨[], t3⟩, ⟨[], t4⟩⟩ now
        ⟨Except.ok l, Except.error (), Except.error (), Except.error ()⟩ true
        noFilters).providers = ⟨some l.length, some 0, some 0, some 0⟩ := by
  refine ⟨?_, ?_, ?_⟩ <;>
    simp [getAllProducts, mergedFiltered, paginateStep, noFilters,
      includeProvider, sTruthy, providerBranch, ppnBranchFull, branchCore,
      isCacheReady, hasCacheData, jsTruthy, applyCountryFilter]

/-- C10: any falsy `limit` (the number `0`, the empty string, `null`,
or `undefined`) takes the no-pagination branch: the whole filtered set
is returned as one page with `totalPages = 1`, the `page` parameter is
ignored, and no division by the limit is performed. -/
theorem falsy_limit_single_page (cache : ProductCache) (now : Int)
    (live : LiveFetches) (ppnEnabled : Bool) (page : JSVal)
    (country category search provider : Option String) (lim : JSVal)
    (h : jsTruthy lim = false) :
    getAllProducts cache now live ppnEnabled
        ⟨page, lim, country, category, search, provider⟩
      = ⟨(mergedFiltered cache now live ppnEnabled
            ⟨page, lim, country, category, search, provider⟩).1,
          ⟨some 1,
            some ((mergedFiltered cache now live ppnEnabled
              ⟨page, lim, country, category, search, provider⟩).1.length : Int),
            (mergedFiltered cache now live ppnEnabled
              ⟨page, lim, country, category, search, provider⟩).1.length,
            some 1⟩,
          (mergedFiltered cache now live ppnEnabled
            ⟨page, lim, country, category, search, provider⟩).2⟩ := by
  simp [getAllProducts, paginateStep, h]

/-- `arr.slice(s, s + L)` at nonnegative bounds is drop-then-take. -/
theorem jsSlice_nat {α : Type} (l : List α) (s L : Nat) :
    jsSlice l (s : Int) ((s : Int) + (L : Int)) = (l.drop s).take L := by
  unfold jsSlice jsSliceIdx
  have h1 : ¬((s : Int) < 0) := by omega
  have h2 : ¬((s : Int) + (L : Int) < 0) := by omega
  rw [if_neg h1, if_neg h2]
  have h3 : (s : Int).toNat = s := by omega
  have h4 : ((s : Int) + (L : Int)).toNat = s + L := by omega
  rw [h3, h4]
  rcases Nat.le_total s l.length with hs | hs
  · rw [Nat.min_eq_left hs, List.drop_take]
    rcases Nat.le_total (s + L) l.length with hsl | hsl
    · rw [Nat.min_eq_left hsl]
      congr 1
      omega
    · rw [Nat.min_eq_right hsl]
      rw [List.take_of_length_le (by rw [List.length_drop]),
        List.take_of_length_le (by rw [List.length_drop]; omega)]
  · rw [Nat.min_eq_right hs, Nat.min_eq_right (by omega : l.length ≤ s + L)]
    simp [List.take_length, List.drop_length, List.drop_eq_nil_of_le hs]

/-- C6: with a positive `limit = L` and `page = k ≥ 1`, the query
returns exactly the slice `[(k-1)·L, k·L)` of the filtered merged set
and reports `page = k`, `limit = L`, `total = S` and
`totalPages = ⌈S / L⌉`; with `limit` omitted it returns the entire
filtered set as a single page with `page = 1`, `limit = total = S` and
`totalPages = 1`. -/
theorem pagination_slices (cache : ProductCache) (now : Int)
    (live : LiveFetches) (ppnEnabled : Bool)
    (country category search provider : Option String)
    (k L : Nat) (hk : 1 ≤ k) (hL : 0 < L) :
    (getAllProducts cache now live ppnEnabled
        ⟨.num (k : Int), .num (L : Int), country, category, search,
          provider⟩).products
      = ((mergedFiltered cache now live ppnEnabled
          ⟨.num (k : Int), .num (L : Int), country, category, search,
            provider⟩).1.drop ((k - 1) * L)).take L
    ∧ (getAllProducts cache now live ppnEnabled
        ⟨.num (k : Int), .num (L : Int), country, category, search,
          provider⟩).pagination
      = ⟨some (k : Int), some (L : Int),
          (mergedFiltered cache now live ppnEnabled
            ⟨.num (k : Int), .num (L : Int), country, category, search,
              provider⟩).1.length,
          some (Int.ceil
            (((mergedFiltered cache now live ppnEnabled
              ⟨.num (k : Int), .num (L : Int), country, category, search,
                provider⟩).1.length : ℚ) / (L : ℚ)))⟩
    ∧ getAllProducts cache now live ppnEnabled
        ⟨.num (k : Int), .undef, country, category, search, provider⟩
      = ⟨(mergedFiltered cache now live ppnEnabled
            ⟨.num (k : Int), .undef, country, category, search, provider⟩).1,
          ⟨some 1,
            some ((mergedFiltered cache now live ppnEnabled
              ⟨.num (k : Int), .undef, country, category, search,
                provider⟩).1.length : Int),
            (mergedFiltered cache now live ppnEnabled
              ⟨.num (k : Int), .undef, country, category, search,
                provider⟩).1.length,
            some 1⟩,
          (mergedFiltered cache now live ppnEnabled
            ⟨.num (k : Int), .undef, country, category, search,
              provider⟩).2⟩ := by
  have hLne : ((L : Int) ≠ 0) := by omega
  have hkne : ¬((k : Int) = 0) := by omega
  have hout : getAllProducts cache now live ppnEnabled
      ⟨.num (k : Int), .num (L : Int), country, category, search, provider⟩
      = ⟨jsSlice (mergedFiltered cache now live ppnEnabled
            ⟨.num (k : Int), .num (L : Int), country, category, search,
              provider⟩).1
            (((k : Int) - 1) * (L : Int))
            (((k : Int) - 1) * (L : Int) + (L : Int)),
          ⟨some (k : Int), some (L : Int),
            (mergedFiltered cache now live ppnEnabled
              ⟨.num (k : Int), .num (L : Int), country, category, search,
                provider⟩).1.length,
            jsCeilDiv ((mergedFiltered cache now live ppnEnabled
              ⟨.num (k : Int), .num (L : Int), country, category, search,
                provider⟩).1.length : Int) (L : Int)⟩,
          (mergedFiltered cache now live ppnEnabled
            ⟨.num (k : Int), .num (L : Int), country, category, search,
              provider⟩).2⟩ := by
    unfold getAllProducts paginateStep
    simp [jsTruthy, parseIntJS, jsOrInt, hkne, hLne]
  have hcast : ((k : Int) - 1) * (L : Int) = (((k - 1) * L : Nat) : Int) := by
    rw [Nat.cast_mul, Nat.cast_sub hk, Nat.cast_one]
  refine ⟨?_, ?_, ?_⟩
  · rw [hout]
    show jsSlice _ _ _ = _
    rw [hcast]
    exact jsSlice_nat _ ((k - 1) * L) L
  · rw [hout]
    show PaginationInfo.mk _ _ _ _ = PaginationInfo.mk _ _ _ _
    have : jsCeilDiv ((mergedFiltered cache now live ppnEnabled
        ⟨.num (k : Int), .num (L : Int), country, category, search,
          provider⟩).1.length : Int) (L : Int)
        = some (Int.ceil
            (((mergedFiltered cache now live ppnEnabled
              ⟨.num (k : Int), .num (L : Int), country, category, search,
                provider⟩).1.length : ℚ) / (L : ℚ))) := by
      rw [jsCeilDiv, if_neg hLne]
      simp only [Int.cast_natCast]
    rw [this]
  · unfold getAllProducts paginateStep
    simp [jsTruthy]

/-- Witness for C6 over the empty cache with `k = 1`, `L = 3`: the
returned page is the (empty) slice and the pagination record matches. -/
theorem pagination_slices_witness :
    (getAllProducts emptyCache 0 errorFetches true
        ⟨.num 1, .num 3, none, none, none, none⟩).products
      = ((mergedFiltered emptyCache 0 errorFetches true
          ⟨.num 1, .num 3, none, none, none, none⟩).1.drop 0).take 3 :=
  (pagination_slices emptyCache 0 errorFetches true none none none none 1 3
    (by decide) (by decide)).1

/-- Witness for C10 at `limit = 0`, `page = 7`, over the empty cache:
the result is a single page with `totalPages = 1`. -/
theorem falsy_limit_witness :
    (getAllProducts emptyCache 0 errorFetches true
        ⟨.num 7, .num 0, none, none, none, none⟩).pagination.totalPages
      = some 1 := by
  rw [falsy_limit_single_page emptyCache 0 errorFetches true (.num 7)
    none none none none (.num 0) (by decide)]

/-! ## `getProductById` price ranges

The four provider branches of `getProductById` each build a
`priceRange` object from the raw detail record; monetary amounts are
modelled as rationals, and a JS field that is absent (or fails
`parseFloat`) is modelled as `0`, which behaves identically in the
source's `||` fallback chains and `isRange` truthiness tests. -/

structure PriceRange where
  min : ℚ
  max : ℚ
  increment : ℚ
  isRange : Bool
deriving Repr, DecidableEq

/-- A PPN `MinAmount`/`MaxAmount` value: either a plain number or an
object carrying `faceValue` and `deliveredAmount`. -/
inductive PpnAmt where
  | num (q : ℚ)
  | obj (faceValue deliveredAmount : ℚ)
deriving Repr, DecidableEq

/-- `(typeof v === 'object') ? (v.faceValue || v.deliveredAmount || 0)
: (Number(v) || 0)`. -/
def ppnExtractAmt : PpnAmt → ℚ
  | .num q => q
  | .obj fv da => if fv ≠ 0 then fv else if da ≠ 0 then da else 0

/-- The fields of a PPN detail record consulted when building its
`priceRange` (`MinAmount`/`MaxAmount` after their lookup chains,
`FixedAmounts`, `allowDecimal`). -/
structure RawPpnDetail where
  minAmount : PpnAmt
  maxAmount : PpnAmt
  fixedAmounts : List ℚ
  allowDecimal : Bool
deriving Repr, DecidableEq

/-- The `priceRange` object of the PPN branch of `getProductById`:
`min`/`max` are the extracted amounts, `increment` is `0.01` when
decimals are allowed, and `isRange` holds when there are no fixed
amounts and the two extracted amounts are nonzero and different. -/
def ppnPriceRange (q : RawPpnDetail) : PriceRange :=
  ⟨ppnExtractAmt q.minAmount, ppnExtractAmt q.maxAmount,
    (if q.allowDecimal then 1 / 100 else 1),
    q.fixedAmounts.isEmpty && decide (ppnExtractAmt q.minAmount ≠ 0)
      && decide (ppnExtractAmt q.maxAmount ≠ 0)
      && decide (ppnExtractAmt q.minAmount ≠ ppnExtractAmt q.maxAmount)⟩

/-- A DT-One amount field: a plain number, a range object with
`min`/`max`/`increment` (absent members modelled as `0`), or absent. -/
inductive DtAmount where
  | num (q : ℚ)
  | range (lo hi inc : ℚ)
  | absent
deriving Repr, DecidableEq

/-- The fields of a DT-One detail record consulted when building its
`priceRange`: `destination.amount`, `source.amount`,
`prices.retail.amount` and `type`. -/
structure RawDtoneDetail where
  destAmount : DtAmount
  srcAmount : DtAmount
  retailAmount : DtAmount
  ptype : String
deriving Repr, DecidableEq

def dtIsRangeObj : DtAmount → Bool
  | .range _ _ _ => true
  | _ => false

/-- A DT-One product is ranged when one of the amount fields is a
range object or its type starts with `RANGED_VALUE`. -/
def dtoneIsRange (p : RawDtoneDetail) : Bool :=
  dtIsRangeObj p.destAmount || dtIsRangeObj p.srcAmount
    || p.ptype.startsWith "RANGED_VALUE"

/-- `rangeMin`: the source range's `min` when present, else the
destination range's, else `0`. -/
def dtoneRangeMin (p : RawDtoneDetail) : ℚ :=
  match p.srcAmount with
  | .range lo _ _ => lo
  | _ =>
    match p.destAmount with
    | .range lo _ _ => lo
    | _ => 0

/-- `rangeMax`: the source range's `max` when present, else the
destination range's, else `0`. -/
def dtoneRangeMax (p : RawDtoneDetail) : ℚ :=
  match p.srcAmount with
  | .range _ hi _ => hi
  | _ =>
    match p.destAmount with
    | .range _ hi _ => hi
    | _ => 0

/-- `rangeIncrement = srcRange.increment || destRange?.increment || 1`
(resp. `destRange.increment || 1` when only the destination is a
range object). -/
def dtoneRangeIncrement (p : RawDtoneDetail) : ℚ :=
  match p.srcAmount with
  | .range _ _ inc =>
    if inc ≠ 0 then inc
    else
      match p.destAmount with
      | .range _ _ inc2 => if inc2 ≠ 0 then inc2 else 1
      | _ => 1
  | _ =>
    match p.destAmount with
    | .range _ _ inc => if inc ≠ 0 then inc else 1
    | _ => 1

/-- Fixed-denomination value: `parseFloat(retailPrice || destAmount)`,
where `retailPrice` is the numeric retail amount falling back to the
numeric source amount, and `destAmount` the numeric destination
amount. -/
def dtoneFixedValue (p : RawDtoneDetail) : ℚ :=
  let destA := match p.destAmount with | .num q => q | _ => 0
  let srcA := match p.srcAmount with | .num q => q | _ => 0
  let retailP := match p.retailAmount with | .num q => q | _ => srcA
  if retailP ≠ 0 then retailP else destA

/-- The `priceRange` object of the DT-One branch of `getProductById`:
for ranged products the selected range's bounds; for fixed products
the single value in both `min` and `max`. -/
def dtonePriceRange (p : RawDtoneDetail) : PriceRange :=
  if dtoneIsRange p then
    ⟨dtoneRangeMin p, dtoneRangeMax p, dtoneRangeIncrement p, true⟩
  else
    ⟨dtoneFixedValue p, dtoneFixedValue p, 1, false⟩

/-- The fields of a Billers SKU consulted for the biller's
`priceRange`: `MinAmount`, `MaxAmount` and `Amount` (absent modelled
as `0`). -/
structure RawSku where
  minAmount : ℚ
  maxAmount : ℚ
  amount : ℚ
deriving Repr, DecidableEq

/-- `parseFloat(s.MinAmount || s.Amount || 0)`. -/
def skuMin (s : RawSku) : ℚ := if s.minAmount ≠ 0 then s.minAmount else s.amount

/-- `parseFloat(s.MaxAmount || s.Amount || 0)`. -/
def skuMax (s : RawSku) : ℚ := if s.maxAmount ≠ 0 then s.maxAmount else s.amount

/-- `skus.length > 0 ? Math.min(...skus.map(...)) : 0`. -/
def billersMinAmt (skus : List RawSku) : ℚ :=
  match skus.map skuMin with
  | [] => 0
  | x :: xs => xs.foldl min x

/-- `skus.length > 0 ? Math.max(...skus.map(...)) : 0`. -/
def billersMaxAmt (skus : List RawSku) : ℚ :=
  match skus.map skuMax with
  | [] => 0
  | x :: xs => xs.foldl max x

/-- The `priceRange` object of the Billers branch of
`getProductById`. -/
def billersPriceRange (skus : List RawSku) : PriceRange :=
  ⟨billersMinAmt skus, billersMaxAmt skus, 1,
    decide (billersMinAmt skus ≠ billersMaxAmt skus)⟩

/-- The inputs of the GlobeTopper branch's `priceRange`:
`mergedMin`/`mergedMax` are `parseFloat(merged.min || 0)` and
`parseFloat(String(merged.max || '0').replace(/,/g, ''))` (`0` when
absent or not a number), and `parsedMin`/`parsedMax` are the two
numeric captures of the denomination-string regex
`/([\d.,]+)\s*-\s*([\d.,]+)/` (`0` when it does not match). -/
structure RawGtDetail where
  mergedMin : ℚ
  mergedMax : ℚ
  parsedMin : ℚ
  parsedMax : ℚ
  isARangeFlag : Bool
  incrementField : ℚ
deriving Repr, DecidableEq

/-- The `priceRange` object of the GlobeTopper branch of
`getProductById`. -/
def gtPriceRange (g : RawGtDetail) : PriceRange :=
  ⟨(if g.mergedMin ≠ 0 then g.mergedMin else g.parsedMin),
    (if g.mergedMax ≠ 0 then g.mergedMax else g.parsedMax),
    g.incrementField,
    g.isARangeFlag
      || (decide (g.parsedMin ≠ g.parsedMax) && decide (0 < g.parsedMax))⟩

theorem foldl_min_le_init (x0 : ℚ) (l : List ℚ) : l.foldl min x0 ≤ x0 := by
  induction l generalizing x0 with
  | nil => exact le_refl x0
  | cons a l ih =>
    calc (a :: l).foldl min x0 = l.foldl min (min x0 a) := rfl
    _ ≤ min x0 a := ih (min x0 a)
    _ ≤ x0 := min_le_left x0 a

theorem init_le_foldl_max (x0 : ℚ) (l : List ℚ) : x0 ≤ l.foldl max x0 := by
  induction l generalizing x0 with
  | nil => exact le_refl x0
  | cons a l ih =>
    calc x0 ≤ max x0 a := le_max_left x0 a
    _ ≤ l.foldl max (max x0 a) := ih (max x0 a)
    _ = (a :: l).foldl max x0 := rfl

/-- With every SKU's extracted minimum at most its extracted maximum,
the biller-level minimum over all SKU minima is at most the maximum
over all SKU maxima. -/
theorem billers_min_le_max (skus : List RawSku)
    (h : ∀ s ∈ skus, skuMin s ≤ skuMax s) :
    billersMinAmt skus ≤ billersMaxAmt skus := by
  cases skus with
  | nil => simp [billersMinAmt, billersMaxAmt]
  | cons s rest =>
    have hs : skuMin s ≤ skuMax s := h s (List.mem_cons_self s rest)
    calc billersMinAmt (s :: rest)
        = (rest.map skuMin).foldl min (skuMin s) := rfl
      _ ≤ skuMin s := foldl_min_le_init _ _
      _ ≤ skuMax s := hs
      _ ≤ (rest.map skuMax).foldl max (skuMax s) := init_le_foldl_max _ _
      _ = billersMaxAmt (s :: rest) := rfl

/-- C9 counterexample: a PPN detail record whose raw `MinAmount` is 9
and `MaxAmount` is 2 produces `priceRange = {min: 9, max: 2}` — both
nonzero with `min > max` — so `getProductById` does not guarantee the
price-range invariant against inverted upstream amounts. -/
theorem price_range_invariant_cex :
    (ppnPriceRange ⟨.num 9, .num 2, [], true⟩).min ≠ 0
    ∧ (ppnPriceRange ⟨.num 9, .num 2, [], true⟩).max ≠ 0
    ∧ ¬((ppnPriceRange ⟨.num 9, .num 2, [], true⟩).min
        ≤ (ppnPriceRange ⟨.num 9, .num 2, [], true⟩).max) := by
  refine ⟨by decide, by decide, by decide⟩

/-- C9 (amended): the invariant `priceRange.min ≤ priceRange.max` is
not enforced by the code; it holds exactly when the amounts extracted
from the upstream record are themselves well-ordered.  Concretely: a
non-ranged DT-One product always satisfies it with `min = max`; a
ranged DT-One product satisfies it when the selected range object is
well-ordered; a PPN product when its two extracted amounts are
ordered; a Billers product when every SKU's extracted min is at most
its extracted max (a genuine consequence of taking `Math.min` of the
minima and `Math.max` of the maxima); and a GlobeTopper product when
its two effective amounts are ordered. -/
theorem price_range_invariant (p : RawDtoneDetail) (q : RawPpnDetail)
    (skus : List RawSku) (g : RawGtDetail)
    (hdt : dtoneIsRange p = true → dtoneRangeMin p ≤ dtoneRangeMax p)
    (hppn : ppnExtractAmt q.minAmount ≤ ppnExtractAmt q.maxAmount)
    (hsku : ∀ s ∈ skus, skuMin s ≤ skuMax s)
    (hgt : (if g.mergedMin ≠ 0 then g.mergedMin else g.parsedMin)
      ≤ (if g.mergedMax ≠ 0 then g.mergedMax else g.parsedMax)) :
    (dtonePriceRange p).min ≤ (dtonePriceRange p).max
    ∧ (dtoneIsRange p = false →
        (dtonePriceRange p).min = (dtonePriceRange p).max)
    ∧ (ppnPriceRange q).min ≤ (ppnPriceRange q).max
    ∧ (billersPriceRange skus).min ≤ (billersPriceRange skus).max
    ∧ (gtPriceRange g).min ≤ (gtPriceRange g).max := by
  refine ⟨?_, ?_, hppn, billers_min_le_max skus hsku, hgt⟩
  · by_cases hr : dtoneIsRange p = true
    · simp [dtonePriceRange, hr]
      exact hdt hr
    · simp [dtonePriceRange, hr]
  · intro hr
    simp [dtonePriceRange, hr]

/-- Witness for the amended C9 at concrete records: a fixed DT-One
product, an ordered PPN record, a single well-ordered SKU and an
ordered GlobeTopper record. -/
theorem price_range_invariant_witness :
    (billersPriceRange [⟨1, 3, 0⟩]).min ≤ (billersPriceRange [⟨1, 3, 0⟩]).max
    ∧ (ppnPriceRange ⟨.num 1, .num 2, [], true⟩).min
      ≤ (ppnPriceRange ⟨.num 1, .num 2, [], true⟩).max
    ∧ (dtonePriceRange ⟨.num 5, .num 4, .num 6, "FIXED_VALUE"⟩).min
      = (dtonePriceRange ⟨.num 5, .num 4, .num 6, "FIXED_VALUE"⟩).max := by
  have h := price_range_invariant ⟨.num 5, .num 4, .num 6, "FIXED_VALUE"⟩
    ⟨.num 1, .num 2, [], true⟩ [⟨1, 3, 0⟩] ⟨2, 5, 0, 0, false, 1⟩
    (by decide) (by decide) (by decide) (by decide)
  exact ⟨h.2.2.2.1, h.2.2.1, h.2.1 (by decide)⟩

end Finx
